import Mathlib

set_option autoImplicit false

/-!
Verification of the simconnect-go client library.

This file gives a shallow embedding, in Lean 4, of the parts of the
simconnect-go repository that its specification talks about: the
definition-identifier registry (`GetDefineID`), the reflection-based
data-definition registration (`RegisterDataDefinition`), the payload
encoder (`SetData`), the message dispatcher (`dispatchFn` in
connector.go), the poll-loop error classification, the reconnect
backoff policy, and the convenience helpers `IsReport` / `RequestData`.

Machine integers (`DWORD`, i.e. Go `uint32`) are modelled as `Nat`
with an explicit `% 2 ^ 32` where the source performs arithmetic on
them.  Go maps are modelled as association lists with first-match
lookup, which is observationally the same.  Calls across the native
SimConnect boundary are modelled by their argument records plus the
status code the native side returns.
-/

namespace SimConnectGo

/-- Width of the Go `DWORD` (`uint32`) type used for identifiers. -/
def dwordSize : Nat := 2 ^ 32

/-- The reserved key under which `SimConnect.defineMap` stores its allocation
counter (part_001 line 45: the map is initialised to contain the single
entry mapping the string underscore-last to 0). -/
def lastKey : String := "_last"

/-- Registry state of one `SimConnect` session (part_001 lines 15-23):
`defineMap` holds the shape-name-to-identifier assignments together with
the allocation counter stored under `lastKey`; `lastEventID` is the event
identifier counter. -/
structure SimState where
  defineMap : List (String × Nat)
  lastEventID : Nat
deriving DecidableEq

/-- First-match association-list lookup: the observational behaviour of
reading a Go map (the list is kept newest-entry-first, so prepending an
entry models Go map assignment). -/
def lookupName : List (String × Nat) → String → Option Nat
  | [], _ => none
  | (k, v) :: rest, n => if k = n then some v else lookupName rest n

/-- Registry fields of a freshly opened session (part_001 lines 44-47):
the define map contains only the counter entry, at 0, and the event
counter is 0. -/
def initialState : SimState :=
  { defineMap := [(lastKey, 0)], lastEventID := 0 }

/-- The current value of the allocation counter stored in the define map. -/
def counterOf (s : SimState) : Nat :=
  (lookupName s.defineMap lastKey).getD 0

/-- `SimConnect.GetDefineID` (part_001 lines 97-112).  Looks the shape name
up in the define map; if absent, reads the counter entry, binds the name to
it and increments the counter.  The counter entry is a Go `DWORD`, hence
the `% dwordSize` on the increment.  The reflection preamble that obtains
the struct name from the argument is not modelled: the function takes the
shape name directly. -/
def GetDefineID (structName : String) (s : SimState) : Nat × SimState :=
  match lookupName s.defineMap structName with
  | some id => (id, s)
  | none =>
    let id := (lookupName s.defineMap lastKey).getD 0
    (id,
      { s with
        defineMap :=
          (lastKey, (id + 1) % dwordSize) :: (structName, id) :: s.defineMap })

/-- `SimConnect.GetEventID` (part_001 lines 90-94): returns the event
counter and increments it (`DWORD` arithmetic). -/
def GetEventID (s : SimState) : Nat × SimState :=
  (s.lastEventID, { s with lastEventID := (s.lastEventID + 1) % dwordSize })

/-- A sequence of `GetDefineID` calls, threading the session state;
returns the list of identifiers handed out, in call order, and the final
state. -/
def runDefineIDs : List String → SimState → List Nat × SimState
  | [], s => ([], s)
  | n :: ns, s =>
    let p := GetDefineID n s
    let q := runDefineIDs ns p.2
    (p.1 :: q.1, q.2)

/-- Registry invariant at counter value `k`: the counter entry is present
and equals `k`, every allocated identifier is below `k`, and identifiers
are allocated injectively. -/
def RegInvAt (s : SimState) (k : Nat) : Prop :=
  lookupName s.defineMap lastKey = some k ∧
  (∀ n v, n ≠ lastKey → lookupName s.defineMap n = some v → v < k) ∧
  (∀ n₁ n₂ v, n₁ ≠ lastKey → n₂ ≠ lastKey →
    lookupName s.defineMap n₁ = some v → lookupName s.defineMap n₂ = some v →
    n₁ = n₂)

/-! Record codec: field descriptors and data-definition registration. -/

/-- Runtime kind of a Go struct field, as seen by reflection in
`RegisterDataDefinition` and `SetData`: a 64-bit float, a fixed-size
byte array of the given length, an embedded struct (the reserved
envelope-overlay field 0), or any other kind, carried by its
reflect kind string. -/
inductive GoKind where
  | float64
  | byteArray (len : Nat)
  | structKind
  | other (kindName : String)
deriving DecidableEq

/-- One struct field as reflected over by the codec: its Go field name,
its name tag (empty string when the tag is absent, which is how both
`Tag.Lookup` at part_001 line 124 and `Tag.Get` at line 590 surface a
missing tag), its unit tag, its runtime kind, and — when the kind is
float64 — the IEEE-754 bit pattern of its value. -/
structure GoField where
  fieldName : String
  nameTag : String
  unitTag : String
  kind : GoKind
  floatBits : Nat
deriving DecidableEq

/-- The reflect kind string `Kind().String()` of a field, as read at
part_001 line 127 and printed at line 595. -/
def kindString (k : GoKind) : String :=
  match k with
  | .float64 => "float64"
  | .byteArray _ => "array"
  | .structKind => "struct"
  | .other s => s

/-- The `fieldType` string computed at part_001 lines 127-130:
the reflect kind string, with arrays re-formatted to show their length. -/
def fieldTypeString (k : GoKind) : String :=
  match k with
  | .byteArray n => "[" ++ toString n ++ "]byte"
  | _ => kindString k

/-- A SimConnect datum type as produced by the type mapping. -/
inductive SimDataType where
  | float64
  | fixedBytes (n : Nat)
deriving DecidableEq

/-- Modelled from the spec: `derefDataType` is declared in a client-package
file that is not under src/ (part_001 line 136 calls it).  Per the spec,
it maps a field's runtime type to a SimConnect datum type, supporting only
double-precision floats and fixed-size byte arrays, and fails with an
unsupported-field-type error otherwise.  The source passes the
`fieldTypeString` rendering of the kind; the mapping is modelled directly
on the kind, which carries the same information. -/
def derefDataType : GoKind → Except String SimDataType
  | .float64 => Except.ok SimDataType.float64
  | .byteArray n => Except.ok (SimDataType.fixedBytes n)
  | .structKind => Except.error ("unsupported field type: struct")
  | .other s => Except.error ("unsupported field type: " ++ s)

/-- Argument record of one native `SimConnect_AddToDataDefinition` call. -/
structure AddToDataDefCall where
  defineID : Nat
  datumName : String
  unitsName : String
  dataType : SimDataType
deriving DecidableEq

/-- `SimConnect.AddToDataDefinition` (part_001 lines 160-193): performs the
native add-to-data-definition call with the given arguments; the native
side answers with status `r1`, and a negative status is surfaced as an
error.  On success the argument record of the call is returned. -/
def AddToDataDefinition (defineID : Nat) (name unit : String)
    (dataType : SimDataType) (r1 : Int) : Except String AddToDataDefCall :=
  if r1 < 0 then
    Except.error
      ("SimConnect_AddToDataDefinition for " ++ name ++ " error: " ++ toString r1)
  else
    Except.ok (AddToDataDefCall.mk defineID name unit dataType)

/-- Field-level registration errors of `RegisterDataDefinition`. -/
inductive RegError where
  | missingNameTag (fieldName : String)
  | unsupportedFieldType (msg : String)
deriving DecidableEq

/-- The field loop of `RegisterDataDefinition` (part_001 lines 122-142),
applied to the fields from index 1 on.  For each field: a missing name tag
aborts with an error; an unsupported runtime type aborts with the
`derefDataType` error; otherwise the native add-definition call is made
with the next status from `statuses` — and, exactly as at part_001
line 141, the `Except` value returned by `AddToDataDefinition` is
discarded, so a failing native call neither stops the loop nor surfaces
to the caller.  Returns the registration outcome and the trace of native
calls made. -/
def registerFields (defineID : Nat) :
    List GoField → List Int → Option RegError × List AddToDataDefCall
  | [], _ => (none, [])
  | f :: fs, statuses =>
    if f.nameTag = "" then (some (RegError.missingNameTag f.fieldName), [])
    else
      match derefDataType f.kind with
      | Except.error e => (some (RegError.unsupportedFieldType e), [])
      | Except.ok dt =>
        let _ := AddToDataDefinition defineID f.nameTag f.unitTag dt
          (statuses.headD 0)
        let rest := registerFields defineID fs (statuses.drop 1)
        (rest.1, AddToDataDefCall.mk defineID f.nameTag f.unitTag dt :: rest.2)

/-- `SimConnect.RegisterDataDefinition` (part_001 lines 115-145): allocates
(or reuses) the definition identifier for the struct name, then runs the
field loop from index 1 — field 0, the embedded envelope-overlay field, is
always skipped (the loop starts at j = 1), hence the `drop 1`. -/
def RegisterDataDefinition (structName : String) (fields : List GoField)
    (statuses : List Int) (s : SimState) :
    Option RegError × List AddToDataDefCall × SimState :=
  let p := GetDefineID structName s
  let q := registerFields p.1 (fields.drop 1) statuses
  (q.1, q.2, p.2)

/-- Spec-side description of the first error a field produces under
fail-fast checking: a missing name tag, else an unsupported type. -/
def fieldError? (f : GoField) : Option RegError :=
  if f.nameTag = "" then some (RegError.missingNameTag f.fieldName)
  else
    match derefDataType f.kind with
    | Except.error e => some (RegError.unsupportedFieldType e)
    | Except.ok _ => none

/-- Spec-side description of the native call a well-formed field gives
rise to. -/
def callFor? (defineID : Nat) (f : GoField) : Option AddToDataDefCall :=
  if f.nameTag = "" then none
  else
    match derefDataType f.kind with
    | Except.error _ => none
    | Except.ok dt => some (AddToDataDefCall.mk defineID f.nameTag f.unitTag dt)

/-! Payload encoding: `SetData` and its byte-level layout. -/

/-- Modelled from the spec: `SIMCONNECT_OBJECT_ID_USER`, the identifier of
the user-controlled simulated object (declared in a client-package file
not under src/; its exact value is irrelevant to the claims). -/
def OBJECT_ID_USER : Nat := 0

/-- Outcome of a `SetData` call: a tagged field of non-float64 kind, the
runtime panic that taking the address of the first element of an empty
payload slice produces, a failing native call, or the native
set-data-on-simobject call actually issued. -/
inductive SetDataOutcome where
  | errNotFloat64 (fieldName kindName : String)
  | panicEmptyBuf
  | nativeError (defineID : Nat) (r1 : Int)
  | nativeSetData (defineID objectID flags arrayCount size : Nat)
      (payload : List Nat)
deriving DecidableEq

/-- `SimConnect.SetDataOnSimObject` (part_001 lines 281-312): issues the
native set-data call; a negative status becomes an error. -/
def SetDataOnSimObject (defineID objectID flags arrayCount size : Nat)
    (payload : List Nat) (r1 : Int) : SetDataOutcome :=
  if r1 < 0 then SetDataOutcome.nativeError defineID r1
  else SetDataOutcome.nativeSetData defineID objectID flags arrayCount size payload

/-- The field loop of `SetData` (part_001 lines 588-599): skip fields with
an empty name tag, fail on a tagged field whose kind is not float64, and
collect the float64 bit patterns of the tagged fields in declaration
order. -/
def collectFloats : List GoField → Except (String × String) (List Nat)
  | [] => Except.ok []
  | f :: fs =>
    if f.nameTag = "" then collectFloats fs
    else if f.kind = GoKind.float64 then
      match collectFloats fs with
      | Except.error e => Except.error e
      | Except.ok rest => Except.ok (f.floatBits :: rest)
    else Except.error (f.fieldName, kindString f.kind)

/-- `SimConnect.SetData` (part_001 lines 572-605): allocates or reuses the
definition identifier for the record's struct name, collects the tagged
float64 fields, and pushes them to the user object via the native
set-data call with size 8 bytes per collected field.  When zero tagged
fields were collected, the source takes the address of element 0 of the
empty payload slice, which is a runtime index-out-of-range panic: that
path is modelled by the `panicEmptyBuf` outcome.  The input is a struct
shape by construction, so the not-a-struct guard of lines 583-585 cannot
fire and is not modelled. -/
def SetData (structName : String) (fields : List GoField) (r1 : Int)
    (s : SimState) : SetDataOutcome × SimState :=
  let p := GetDefineID structName s
  match collectFloats fields with
  | Except.error e => (SetDataOutcome.errNotFloat64 e.1 e.2, p.2)
  | Except.ok buf =>
    match buf with
    | [] => (SetDataOutcome.panicEmptyBuf, p.2)
    | _ =>
      (SetDataOnSimObject p.1 OBJECT_ID_USER 0 0 ((buf.length * 8) % dwordSize)
        buf r1, p.2)

/-- The 8 bytes of a 64-bit value in little-endian (x86 native) order:
the layout of one `float64` inside the payload buffer `SetData` hands to
the native call. -/
def bytesOfUInt64LE (v : Nat) : List Nat :=
  (List.range 8).map (fun i => v / 256 ^ i % 256)

/-- Reassembling a 64-bit value from its little-endian bytes. -/
def uint64OfBytesLE (bs : List Nat) : Nat :=
  bs.foldr (fun b acc => b + 256 * acc) 0

/-- The byte image of the `[]float64` payload slice `SetData` passes to
the native call: the 8-byte little-endian images of the collected values,
densely packed in order. -/
def payloadBytes (vals : List Nat) : List Nat :=
  (vals.map bytesOfUInt64LE).flatten

/-- Modelled from the spec: decoding a data payload against a record
shape whose tagged fields are all float64 — the raw-reinterpretation
overlay that `IsReport` performs (the struct layout declarations live in
a client-package file not under src/).  The float64 region of the buffer
is read back as consecutive 8-byte native-endian values. -/
def decodeFloat64s : List Nat → List Nat
  | b0 :: b1 :: b2 :: b3 :: b4 :: b5 :: b6 :: b7 :: rest =>
    uint64OfBytesLE [b0, b1, b2, b3, b4, b5, b6, b7] :: decodeFloat64s rest
  | _ => []

/-! Dispatcher and poll-loop classification (connector.go). -/

/-- Modelled from the spec: the message-kind tags of the envelope
(`RECV_ID` constants of the client package, declared in a file not under
src/).  Values follow the SimConnect SDK header; only their mutual
distinctness matters to the dispatcher. -/
def RECV_ID_EXCEPTION : Nat := 1

/-- Modelled from the spec: the open (handshake) message tag. -/
def RECV_ID_OPEN : Nat := 2

/-- Modelled from the spec: the event message tag. -/
def RECV_ID_EVENT : Nat := 4

/-- Modelled from the spec: the simobject-data-by-type message tag. -/
def RECV_ID_SIMOBJECT_DATA_BYTYPE : Nat := 9

/-- Modelled from the spec: the `E_FAIL` HRESULT recognised at
connector.go line 184 (declared in a client file not under src/). -/
def E_FAIL : Nat := 0x80004005

/-- The Go conversion `uint32(r1)` applied at connector.go line 184:
two's-complement reinterpretation of the signed status. -/
def uint32OfInt (r : Int) : Nat := (r % (2 ^ 32 : Int)).toNat

/-- Modelled from the spec: one inbound message buffer.  Every `Recv*`
struct of the client package overlays the same peer-owned memory, so the
buffer carries the envelope tag and size together with the payload fields
of each variant (exception code and originating send ID, event ID, and
the typed-data define ID with its float64 values). -/
structure RecvBuffer where
  ID : Nat
  size : Nat
  exception : Nat
  sendID : Nat
  eventID : Nat
  defineID : Nat
  dataValues : List Nat
deriving DecidableEq

/-- Result of one `dispatchFn` call (connector.go lines 181-212): the
failed-fetch errors (`E_FAIL` wrapping the OS errno, or the fatal
`ErrGetNextDispatch` wrap), the exception error carrying the exception
code and originating send ID (the `RecvException` error of part_000
lines 7-9 renders both), the silently-consumed open handshake, the event
error, the callback invocation (whose consumer in `connect` always
returns nil), or the unknown-kind error carrying the raw tag. -/
inductive DispatchResult where
  | errEFail (r1 : Int) (errno : Nat)
  | errGetNextDispatch (r1 : Int)
  | errException (exceptionCode sendID : Nat)
  | okOpen
  | errEvent (eventID : Nat)
  | callbackOk
  | errUnknownKind (tag : Nat)
deriving DecidableEq

/-- `dispatchFn` (connector.go lines 181-212).  Inputs: the status `r1`
and OS errno of the native get-next-dispatch call, and the fetched
buffer.  A negative status is an error — `E_FAIL` keeps the errno, any
other negative status wraps `ErrGetNextDispatch`.  Otherwise the envelope
tag selects the branch of the switch; the second component is the record
handed to the data-consumer callback (`none` when the callback is not
invoked). -/
def dispatchFn (r1 : Int) (errno : Nat) (buf : RecvBuffer) :
    DispatchResult × Option RecvBuffer :=
  if r1 < 0 then
    if uint32OfInt r1 = E_FAIL then (DispatchResult.errEFail r1 errno, none)
    else (DispatchResult.errGetNextDispatch r1, none)
  else if buf.ID = RECV_ID_EXCEPTION then
    (DispatchResult.errException buf.exception buf.sendID, none)
  else if buf.ID = RECV_ID_OPEN then (DispatchResult.okOpen, none)
  else if buf.ID = RECV_ID_EVENT then (DispatchResult.errEvent buf.eventID, none)
  else if buf.ID = RECV_ID_SIMOBJECT_DATA_BYTYPE then
    (DispatchResult.callbackOk, some buf)
  else (DispatchResult.errUnknownKind buf.ID, none)

/-- What the poll loop does with one tick's dispatch result. -/
inductive TickOutcome where
  | terminateCycle
  | warnContinue
  | quietContinue
deriving DecidableEq

/-- The error classification of the poll loop in `Connector.connect`
(connector.go lines 158-164): a nil result continues silently; an error
wrapping `ErrGetNextDispatch` terminates the cycle; an error for which
`errors.Is(err, syscall.Errno(0))` holds — which among the dispatch
results is exactly the `E_FAIL` error wrapping errno 0, the only result
that wraps an errno at all — continues silently; every other error is
logged as a non-critical warning and the loop keeps ticking. -/
def classifyDispatch : DispatchResult → TickOutcome
  | DispatchResult.okOpen => TickOutcome.quietContinue
  | DispatchResult.callbackOk => TickOutcome.quietContinue
  | DispatchResult.errGetNextDispatch _ => TickOutcome.terminateCycle
  | DispatchResult.errEFail _ errno =>
    if errno = 0 then TickOutcome.quietContinue else TickOutcome.warnContinue
  | DispatchResult.errException _ _ => TickOutcome.warnContinue
  | DispatchResult.errEvent _ => TickOutcome.warnContinue
  | DispatchResult.errUnknownKind _ => TickOutcome.warnContinue

/-! One connect-cycle (`Connector.connect`, connector.go lines 124-167). -/

/-- What one iteration of the poll loop observes: outer-context
cancellation, or a ticker fire whose dispatch sees the given native
status, errno and buffer. -/
inductive TickEvent where
  | ctxDone
  | tick (r1 : Int) (errno : Nat) (buf : RecvBuffer)
deriving DecidableEq

/-- How one connect-cycle ends. -/
inductive CycleEnd where
  | openFailed
  | cancelled
  | fatalDispatch (r1 : Int)
deriving DecidableEq

/-- Externally visible actions of one connect-cycle, in order: starting
the registered receivers, one dispatch per tick, and closing the
session. -/
inductive ConnAction where
  | startReceivers
  | dispatchTick (r : DispatchResult)
  | closeSession
deriving DecidableEq

/-- The poll loop of `connect` (connector.go lines 146-166): consume tick
events until cancellation or a terminating dispatch error; returns the
actions performed and how (whether) the loop ended — `none` means the
supplied event list ran out with the loop still live, i.e. the cycle has
not returned yet. -/
def pollLoop : List TickEvent → List ConnAction × Option CycleEnd
  | [] => ([], none)
  | TickEvent.ctxDone :: _ => ([], some CycleEnd.cancelled)
  | TickEvent.tick r1 errno buf :: rest =>
    let d := dispatchFn r1 errno buf
    match classifyDispatch d.1 with
    | TickOutcome.terminateCycle =>
      ([ConnAction.dispatchTick d.1], some (CycleEnd.fatalDispatch r1))
    | _ =>
      let q := pollLoop rest
      (ConnAction.dispatchTick d.1 :: q.1, q.2)

/-- One connect-cycle (connector.go lines 124-167): if the session open
fails, the cycle returns at once and no session exists to close; on a
successful open, `defer sc.Close()` is armed, the receivers are started,
and the poll loop runs — so the close action is emitted exactly when the
cycle returns, after the loop's actions. -/
def connectCycle (openOk : Bool) (ticks : List TickEvent) :
    List ConnAction × Option CycleEnd :=
  if openOk then
    let q := pollLoop ticks
    match q.2 with
    | some e =>
      (ConnAction.startReceivers :: q.1 ++ [ConnAction.closeSession], some e)
    | none => (ConnAction.startReceivers :: q.1, none)
  else ([], some CycleEnd.openFailed)

/-! Reconnect backoff (`Connector.StartReconnect`, connector.go 94-122). -/

/-- Modelled from the spec: the exponential backoff policy of the external
library wrapped by `StartReconnect` (an external collaborator).  State is
the current interval; `reset` restores the initial interval; `nextBackOff`
returns the current interval and grows it by the default multiplier of
1.5 up to the maximum interval.  With the maximum elapsed time set to 0,
as `StartReconnect` does at line 96, the policy never signals stop, so no
stop value is modelled.  The library's randomisation jitter is elided:
delays are modelled at their nominal value.  Durations are in
nanoseconds. -/
structure ExponentialBackOff where
  initialInterval : Nat
  maxInterval : Nat
  currentInterval : Nat
deriving DecidableEq

/-- Backoff reset: the next delay starts over from the initial interval. -/
def ExponentialBackOff.reset (b : ExponentialBackOff) : ExponentialBackOff :=
  { b with currentInterval := b.initialInterval }

/-- Next backoff delay: returns the current interval and multiplies the
stored interval by 1.5, capped at the maximum interval. -/
def ExponentialBackOff.nextBackOff (b : ExponentialBackOff) :
    Nat × ExponentialBackOff :=
  (b.currentInterval,
    { b with currentInterval := min (b.currentInterval * 3 / 2) b.maxInterval })

/-- One second in nanoseconds. -/
def second : Nat := 1000000000

/-- The per-iteration backoff handling of `StartReconnect` (connector.go
lines 105-109): after a connect-cycle that ran for `runDuration`, the
backoff is reset when the run lasted strictly longer than 90 seconds, and
only then is the next delay computed. -/
def reconnectBackoffStep (bo : ExponentialBackOff) (runDuration : Nat) :
    Nat × ExponentialBackOff :=
  let bo1 := if 90 * second < runDuration then bo.reset else bo
  bo1.nextBackOff

/-! Convenience helpers (utils.go). -/

/-- Modelled from the spec: `SIMCONNECT_SIMOBJECT_TYPE_USER` (declared in
a client file not under src/; exact value irrelevant). -/
def SIMOBJECT_TYPE_USER : Nat := 1

/-- Argument record of one native request-data-on-simobject-type call. -/
structure RequestDataCall where
  requestID : Nat
  defineID : Nat
  radius : Nat
  simobjectType : Nat
deriving DecidableEq

/-- `SimConnect.RequestDataOnSimObjectType` (part_001 lines 218-243):
issues the native call; a negative status becomes an error. -/
def RequestDataOnSimObjectType (requestID defineID radius simobjectType : Nat)
    (r1 : Int) : Except String RequestDataCall :=
  if r1 < 0 then
    Except.error
      ("SimConnect_RequestDataOnSimObjectType for requestID " ++
        toString requestID ++ " defineID " ++ toString defineID ++ " error")
  else Except.ok (RequestDataCall.mk requestID defineID radius simobjectType)

/-- `IsReport` (utils.go lines 10-17): resolves the define ID of the type
parameter through the session registry — allocating it if the name was
never seen — and compares it with the define ID embedded in the received
record.  Returns the comparison result and the (possibly mutated)
session state; the typed-pointer overlay returned on a match is the
byte-level decode modelled by `decodeFloat64s`. -/
def IsReport (structName : String) (recvDefineID : Nat) (s : SimState) :
    Bool × SimState :=
  let p := GetDefineID structName s
  (decide (recvDefineID = p.1), p.2)

/-- `RequestData` (utils.go lines 20-25): resolves the define ID of the
type parameter through the session registry — allocating it if the name
was never seen — and requests data on the user simobject type, using the
define ID also as the request ID. -/
def RequestData (structName : String) (r1 : Int) (s : SimState) :
    Except String RequestDataCall × SimState :=
  let p := GetDefineID structName s
  (RequestDataOnSimObjectType p.1 p.1 0 SIMOBJECT_TYPE_USER r1, p.2)

/-! Concrete shapes and buffers used by witnesses and counterexamples. -/

/-- A shape name used in concrete instances. -/
def nameA : String := "FuelReport"

/-- A second, distinct shape name used in concrete instances. -/
def nameB : String := "FuelRequest"

/-- A datum name tag used in concrete instances. -/
def tagA : String := "FUEL TANK LEFT MAIN QUANTITY"

/-- A second datum name tag used in concrete instances. -/
def tagB : String := "FUEL TANK RIGHT MAIN QUANTITY"

/-- The unit tag used in concrete instances. -/
def unitG : String := "Gallons"

/-- IEEE-754 bit pattern of the float64 value 1.0. -/
def oneBits : Nat := 0x3FF0000000000000

/-- IEEE-754 bit pattern of the float64 value 2.0. -/
def twoBits : Nat := 0x4000000000000000

/-- The embedded envelope-overlay field at index 0 of an application
record: an untagged struct-kind field. -/
def hdrField : GoField :=
  { fieldName := "RecvSimobjectDataByType", nameTag := "", unitTag := "",
    kind := GoKind.structKind, floatBits := 0 }

/-- A tagged float64 field holding 1.0. -/
def fldA : GoField :=
  { fieldName := "FuelLevelLeftMain", nameTag := tagA, unitTag := unitG,
    kind := GoKind.float64, floatBits := oneBits }

/-- A tagged float64 field holding 2.0. -/
def fldB : GoField :=
  { fieldName := "FuelLevelRightMain", nameTag := tagB, unitTag := unitG,
    kind := GoKind.float64, floatBits := twoBits }

/-- A float64 field with no name tag. -/
def badField : GoField :=
  { fieldName := "Untagged", nameTag := "", unitTag := "",
    kind := GoKind.float64, floatBits := 0 }

/-- An inbound buffer carrying the exception tag with exception code 3
and originating send ID 42 (the spec's dispatcher example). -/
def excBuf : RecvBuffer :=
  { ID := RECV_ID_EXCEPTION, size := 0, exception := 3, sendID := 42,
    eventID := 0, defineID := 0, dataValues := [] }

/-- An inbound buffer carrying the open (handshake) tag. -/
def openBuf : RecvBuffer :=
  { ID := RECV_ID_OPEN, size := 0, exception := 0, sendID := 0,
    eventID := 0, defineID := 0, dataValues := [] }

/-- An inbound buffer carrying the simobject-data-by-type tag, define
ID 7 and a two-float payload. -/
def dataBuf : RecvBuffer :=
  { ID := RECV_ID_SIMOBJECT_DATA_BYTYPE, size := 0, exception := 0, sendID := 0,
    eventID := 0, defineID := 7, dataValues := [oneBits, twoBits] }

/-- An inbound buffer whose envelope tag (3) is none of the four tags the
dispatcher knows. -/
def unknownBuf : RecvBuffer :=
  { ID := 3, size := 0, exception := 0, sendID := 0,
    eventID := 0, defineID := 0, dataValues := [] }

/-- A backoff state that has already grown past its initial interval. -/
def grownBo : ExponentialBackOff :=
  { initialInterval := 500000000, maxInterval := 60000000000,
    currentInterval := 1687500000 }

/-! ### Registry lemmas -/

theorem getDefineID_seen {s : SimState} {n : String} {v : Nat}
    (h : lookupName s.defineMap n = some v) : GetDefineID n s = (v, s) := by
  unfold GetDefineID
  rw [h]

theorem getDefineID_preserves {s : SimState} {m : String} {v : Nat}
    (hm : m ≠ lastKey) (h : lookupName s.defineMap m = some v) (n : String) :
    lookupName (GetDefineID n s).2.defineMap m = some v := by
  unfold GetDefineID
  cases hn : lookupName s.defineMap n with
  | some id => exact h
  | none =>
    have hnm : n ≠ m := by
      intro e
      subst e
      rw [hn] at h
      cases h
    simp only [lookupName]
    rw [if_neg (fun e => hm e.symm), if_neg hnm]
    exact h

theorem getDefineID_lookup_self {s : SimState} {n : String} (hn : n ≠ lastKey) :
    lookupName (GetDefineID n s).2.defineMap n = some (GetDefineID n s).1 := by
  unfold GetDefineID
  cases h : lookupName s.defineMap n with
  | some id => exact h
  | none =>
    have hc : ¬(lastKey = n) := fun e => hn e.symm
    simp [lookupName, hc]

theorem runDefineIDs_preserves {names : List String} {s : SimState}
    {m : String} {v : Nat} (hm : m ≠ lastKey)
    (h : lookupName s.defineMap m = some v) :
    lookupName (runDefineIDs names s).2.defineMap m = some v := by
  induction names generalizing s with
  | nil => exact h
  | cons n ns ih => exact ih (getDefineID_preserves hm h n)

theorem runDefineIDs_lookup_self {names : List String} {s : SimState}
    {n : String} (hn : n ≠ lastKey) (hmem : n ∈ names) :
    ∃ v, lookupName (runDefineIDs names s).2.defineMap n = some v := by
  induction names generalizing s with
  | nil => cases hmem
  | cons m ms ih =>
    rcases List.mem_cons.1 hmem with h | h
    · subst h
      exact ⟨(GetDefineID n s).1,
        @runDefineIDs_preserves ms (GetDefineID n s).2 n (GetDefineID n s).1 hn
          (getDefineID_lookup_self (s := s) hn)⟩
    · exact ih h

theorem runDefineIDs_fst_eq_map {names : List String} {s : SimState}
    (h : ∀ n ∈ names, n ≠ lastKey) :
    (runDefineIDs names s).1 =
      names.map
        (fun n => (lookupName (runDefineIDs names s).2.defineMap n).getD 0) := by
  induction names generalizing s with
  | nil => rfl
  | cons n ns ih =>
    have hn : n ≠ lastKey := h n (List.mem_cons_self n ns)
    have hd :
        lookupName (runDefineIDs ns (GetDefineID n s).2).2.defineMap n
          = some (GetDefineID n s).1 :=
      @runDefineIDs_preserves ns (GetDefineID n s).2 n (GetDefineID n s).1 hn
        (getDefineID_lookup_self (s := s) hn)
    have ht := ih (s := (GetDefineID n s).2)
      (fun m hm => h m (List.mem_cons_of_mem n hm))
    simp only [runDefineIDs, List.map]
    rw [hd, Option.getD_some, ht]

theorem regInv_initial : RegInvAt initialState 0 := by
  refine ⟨rfl, ?_, ?_⟩
  · intro n v hn hv
    simp only [initialState, lookupName] at hv
    rw [if_neg (fun e => hn e.symm)] at hv
    cases hv
  · intro n₁ n₂ v h₁ h₂ hv₁ hv₂
    simp only [initialState, lookupName] at hv₁
    rw [if_neg (fun e => h₁ e.symm)] at hv₁
    cases hv₁

theorem regInv_step {s : SimState} {k : Nat} (inv : RegInvAt s k)
    {n : String} (hn : n ≠ lastKey) (hk : k + 1 < dwordSize) :
    ∃ k', k' ≤ k + 1 ∧ RegInvAt (GetDefineID n s).2 k' := by
  cases h : lookupName s.defineMap n with
  | some v =>
    refine ⟨k, Nat.le_succ k, ?_⟩
    rw [getDefineID_seen h]
    exact inv
  | none =>
    have hstep : (GetDefineID n s).2 =
        { s with
          defineMap := (lastKey, k + 1) :: (n, k) :: s.defineMap } := by
      unfold GetDefineID
      rw [h]
      simp only [inv.1, Option.getD_some, Nat.mod_eq_of_lt hk]
    refine ⟨k + 1, Nat.le_refl _, ?_, ?_, ?_⟩ <;> rw [hstep]
    · simp [lookupName]
    · intro m v hm hv
      simp only [lookupName] at hv
      rw [if_neg (fun e => hm e.symm)] at hv
      by_cases hmn : n = m
      · rw [if_pos hmn] at hv
        cases hv
        exact Nat.lt_succ_self k
      · rw [if_neg hmn] at hv
        exact Nat.lt_succ_of_lt (inv.2.1 m v hm hv)
    · intro m₁ m₂ v h₁ h₂ hv₁ hv₂
      simp only [lookupName] at hv₁ hv₂
      rw [if_neg (fun e => h₁ e.symm)] at hv₁
      rw [if_neg (fun e => h₂ e.symm)] at hv₂
      by_cases hm₁ : n = m₁ <;> by_cases hm₂ : n = m₂
      · rw [← hm₁, ← hm₂]
      · rw [if_pos hm₁] at hv₁
        rw [if_neg hm₂] at hv₂
        cases hv₁
        exact absurd (inv.2.1 m₂ k h₂ hv₂) (Nat.lt_irrefl k)
      · rw [if_neg hm₁] at hv₁
        rw [if_pos hm₂] at hv₂
        cases hv₂
        exact absurd (inv.2.1 m₁ k h₁ hv₁) (Nat.lt_irrefl k)
      · rw [if_neg hm₁] at hv₁
        rw [if_neg hm₂] at hv₂
        exact inv.2.2 m₁ m₂ v h₁ h₂ hv₁ hv₂

theorem regInv_run {names : List String} {s : SimState} {k : Nat}
    (inv : RegInvAt s k) (h : ∀ n ∈ names, n ≠ lastKey)
    (hlen : k + names.length < dwordSize) :
    ∃ k', k' ≤ k + names.length ∧ RegInvAt (runDefineIDs names s).2 k' := by
  induction names generalizing s k with
  | nil => exact ⟨k, Nat.le_refl _, inv⟩
  | cons n ns ih =>
    have hlen' : k + 1 < dwordSize := by
      simp only [List.length_cons] at hlen
      omega
    obtain ⟨k₁, hk₁, inv₁⟩ :=
      regInv_step inv (h n (List.mem_cons_self n ns)) hlen'
    obtain ⟨k', hk', inv'⟩ :=
      ih inv₁ (fun m hm => h m (List.mem_cons_of_mem n hm))
        (by simp only [List.length_cons] at hlen; omega)
    refine ⟨k', ?_, inv'⟩
    simp only [List.length_cons]
    omega

/-- C4.  For every session-scoped sequence of `GetDefineID` calls whose
shape names avoid the registry's reserved counter key (the underscore-last
sentinel) and whose length stays below the `DWORD` range: the identifier
returned for a name is a function of that name alone (so two calls with
the same name agree), distinct names receive distinct identifiers (so a
never-seen name gets a previously-unused identifier); moreover the
counter starts at 0, a fresh name is issued the current counter value and
increments it by one, and a seen name returns its stored identifier
without touching the state.  Allocation is a total function — it never
fails.  (This is the claim as amended: a shape literally named like the
sentinel breaks the distinctness guarantee, see the counterexample.) -/
theorem getDefineID_registry_spec (names : List String)
    (h : ∀ n ∈ names, n ≠ lastKey) (hlen : names.length < dwordSize) :
    (∃ g : String → Nat,
      (runDefineIDs names initialState).1 = names.map g ∧
      ∀ n₁ ∈ names, ∀ n₂ ∈ names, n₁ ≠ n₂ → g n₁ ≠ g n₂) ∧
    counterOf initialState = 0 ∧
    (∀ s n, n ≠ lastKey → lookupName s.defineMap n = none →
      (GetDefineID n s).1 = counterOf s ∧
      counterOf (GetDefineID n s).2 = (counterOf s + 1) % dwordSize) ∧
    (∀ s n v, lookupName s.defineMap n = some v → GetDefineID n s = (v, s)) := by
  refine ⟨?_, rfl, ?_, ?_⟩
  · refine
      ⟨fun n => (lookupName (runDefineIDs names initialState).2.defineMap n).getD 0,
        runDefineIDs_fst_eq_map h, ?_⟩
    intro n₁ h₁ n₂ h₂ hne he
    obtain ⟨k', _, inv⟩ :=
      regInv_run regInv_initial h (by simpa using hlen)
    obtain ⟨v₁, hv₁⟩ := runDefineIDs_lookup_self (s := initialState) (h n₁ h₁) h₁
    obtain ⟨v₂, hv₂⟩ := runDefineIDs_lookup_self (s := initialState) (h n₂ h₂) h₂
    have he' :
        (lookupName (runDefineIDs names initialState).2.defineMap n₁).getD 0 =
          (lookupName (runDefineIDs names initialState).2.defineMap n₂).getD 0 := he
    rw [hv₁, hv₂] at he'
    simp only [Option.getD_some] at he'
    subst he'
    exact hne (inv.2.2 n₁ n₂ v₁ (h n₁ h₁) (h n₂ h₂) hv₁ hv₂)
  · intro s n hn hno
    unfold GetDefineID
    rw [hno]
    refine ⟨rfl, ?_⟩
    simp [counterOf, lookupName]
  · intro s n v hv
    exact getDefineID_seen hv

/-- Witness for C4: instantiated at the two-name call sequence
`[nameA, nameB]`, with both hypotheses discharged by computation. -/
theorem getDefineID_registry_spec_witness :
    ∃ g : String → Nat,
      (runDefineIDs [nameA, nameB] initialState).1 = [nameA, nameB].map g ∧
      ∀ n₁ ∈ [nameA, nameB], ∀ n₂ ∈ [nameA, nameB], n₁ ≠ n₂ → g n₁ ≠ g n₂ :=
  (getDefineID_registry_spec [nameA, nameB] (by decide) (by decide)).1

/-- Counterexample to C4 as stated: the registry keeps its allocation
counter in the same map as the shape names, under the key underscore-last.
A Go struct may legally be named exactly that, and `GetDefineID` then
returns the current counter value without allocating.  Here the first call
(for that sentinel-named shape) returns identifier 0, and the second call,
for a shape name never seen before, also returns 0 — a previously returned
identifier — refuting distinctness. -/
theorem getDefineID_registry_cex :
    lastKey ≠ nameA ∧ (runDefineIDs [lastKey, nameA] initialState).1 = [0, 0] := by
  constructor
  · decide
  · rfl

/-! ### Registration theorems -/

/-- Characterisation of the registration loop: its outcome is the first
field-level error in declaration order, its call trace covers exactly the
fields before that error, and the native status codes have no influence
at all (the right-hand side does not mention `statuses`). -/
theorem registerFields_char (defineID : Nat) (fs : List GoField)
    (statuses : List Int) :
    registerFields defineID fs statuses =
      (fs.findSome? fieldError?,
        (fs.takeWhile (fun f => (fieldError? f).isNone)).filterMap
          (callFor? defineID)) := by
  induction fs generalizing statuses with
  | nil => rfl
  | cons f fs ih =>
    by_cases h : f.nameTag = ""
    · simp [registerFields, fieldError?, List.findSome?, List.takeWhile, h]
    · cases hd : derefDataType f.kind with
      | error e =>
        simp [registerFields, fieldError?, List.findSome?, List.takeWhile, h, hd]
      | ok dt =>
        simp [registerFields, fieldError?, callFor?, List.findSome?,
          List.takeWhile, h, hd, ih]

theorem findSome?_append_of_none {α β : Type} (p : α → Option β)
    {l₁ : List α} (l₂ : List α) (h : ∀ x ∈ l₁, p x = none) :
    (l₁ ++ l₂).findSome? p = l₂.findSome? p := by
  induction l₁ with
  | nil => rfl
  | cons a l ih =>
    simp only [List.cons_append, List.findSome?, h a (List.mem_cons_self a l)]
    exact ih (fun x hx => h x (List.mem_cons_of_mem a hx))

theorem takeWhile_append_of_false {α : Type} (p : α → Bool)
    {l₁ : List α} (l₂ : List α) (a : α)
    (h : ∀ x ∈ l₁, p x = true) (ha : p a = false) :
    (l₁ ++ a :: l₂).takeWhile p = l₁ := by
  induction l₁ with
  | nil => simp [List.takeWhile, ha]
  | cons b l ih =>
    simp only [List.cons_append, List.takeWhile, h b (List.mem_cons_self b l),
      List.append_eq]
    rw [ih (fun x hx => h x (List.mem_cons_of_mem b hx))]

theorem registerFields_calls_defineID (defineID : Nat) (fs : List GoField)
    (statuses : List Int) :
    ∀ call ∈ (registerFields defineID fs statuses).2, call.defineID = defineID := by
  induction fs generalizing statuses with
  | nil => intro call hc; cases hc
  | cons f fs ih =>
    intro call hc
    by_cases h : f.nameTag = ""
    · simp only [registerFields, if_pos h] at hc
      cases hc
    · cases hd : derefDataType f.kind with
      | error e =>
        simp only [registerFields, if_neg h, hd] at hc
        cases hc
      | ok dt =>
        simp only [registerFields, if_neg h, hd] at hc
        rcases List.mem_cons.1 hc with h1 | h1
        · rw [h1]
        · exact ih (statuses.drop 1) call h1

/-- C3, amended.  `RegisterDataDefinition` is fully characterised by: the
define ID resolved for the struct name, the first field-level error (in
declaration order, fields after index 0) among the missing-name-tag and
unsupported-field-type checks, and the native add-definition calls for
exactly the fields preceding that error — which stay made (no rollback),
as does the registry allocation.  The right-hand side does not mention
`statuses`: the status codes returned by the native add-definition calls
have no effect on the result, because the source discards the error
`AddToDataDefinition` returns (the deviation from the claim as written,
see the counterexample). -/
theorem registerDataDefinition_fail_fast (structName : String)
    (fields : List GoField) (statuses : List Int) (s : SimState) :
    RegisterDataDefinition structName fields statuses s =
      ((fields.drop 1).findSome? fieldError?,
        ((fields.drop 1).takeWhile (fun f => (fieldError? f).isNone)).filterMap
          (callFor? (GetDefineID structName s).1),
        (GetDefineID structName s).2) := by
  simp only [RegisterDataDefinition, registerFields_char]

/-- Counterexample to C3 as stated: registering a record whose first
non-skipped field is well-formed but whose native add-definition call
fails (status -1) reports no error — the native call's error value is
discarded at part_001 line 141 — and still proceeds to the next field:
the call trace has both calls.  So an error produced by the native
add-definition call is neither returned nor does it stop processing. -/
theorem registerDataDefinition_native_error_cex :
    AddToDataDefinition 0 tagA unitG SimDataType.float64 (-1) =
      Except.error
        ("SimConnect_AddToDataDefinition for " ++ tagA ++ " error: -1") ∧
    (RegisterDataDefinition nameB [hdrField, fldA, fldB] [-1, 0]
        initialState).1 = none ∧
    (RegisterDataDefinition nameB [hdrField, fldA, fldB] [-1, 0]
        initialState).2.1 =
      [AddToDataDefCall.mk 0 tagA unitG SimDataType.float64,
        AddToDataDefCall.mk 0 tagB unitG SimDataType.float64] := by
  refine ⟨?_, rfl, rfl⟩
  rfl

/-- C6.  If every field strictly between index 0 and a field lacking a
name tag passes both field checks, registration fails with the
missing-name-tag error naming that field's Go field name, the native
add-definition calls cover exactly the fields before it (they may already
have been registered — nothing is rolled back), and no call is made for
the failing field or any later one.  Moreover field 0 never participates:
the outcome is the same whatever stands at index 0. -/
theorem registerDataDefinition_missing_name_tag (structName : String)
    (f0 bad : GoField) (pre post : List GoField) (statuses : List Int)
    (s : SimState) (hpre : ∀ f ∈ pre, fieldError? f = none)
    (hbad : bad.nameTag = "") :
    RegisterDataDefinition structName (f0 :: pre ++ bad :: post) statuses s =
      (some (RegError.missingNameTag bad.fieldName),
        pre.filterMap (callFor? (GetDefineID structName s).1),
        (GetDefineID structName s).2) ∧
    ∀ f0' : GoField,
      RegisterDataDefinition structName (f0' :: pre ++ bad :: post) statuses s =
        RegisterDataDefinition structName (f0 :: pre ++ bad :: post) statuses s := by
  constructor
  · have hdrop : (f0 :: pre ++ bad :: post).drop 1 = pre ++ bad :: post := rfl
    rw [registerDataDefinition_fail_fast, hdrop]
    have hbe : fieldError? bad = some (RegError.missingNameTag bad.fieldName) := by
      simp [fieldError?, hbad]
    have h1 : (pre ++ bad :: post).findSome? fieldError? =
        some (RegError.missingNameTag bad.fieldName) := by
      rw [findSome?_append_of_none fieldError? (bad :: post) hpre]
      simp [List.findSome?, hbe]
    have h2 : (pre ++ bad :: post).takeWhile
        (fun f => (fieldError? f).isNone) = pre := by
      refine takeWhile_append_of_false _ post bad (fun x hx => ?_) ?_
      · rw [hpre x hx]
        rfl
      · rw [hbe]
        rfl
    rw [h1, h2]
  · intro f0'
    rfl

/-- Witness for C6: a record with the envelope field at index 0, one
well-formed field, then an untagged field, then one more field.
Registration stops at the untagged field with the error naming it, and
only the first field's native call was made. -/
theorem registerDataDefinition_missing_name_tag_witness :
    RegisterDataDefinition nameB [hdrField, fldA, badField, fldB] []
        initialState =
      (some (RegError.missingNameTag badField.fieldName),
        [fldA].filterMap (callFor? (GetDefineID nameB initialState).1),
        (GetDefineID nameB initialState).2) ∧
    ∀ f0' : GoField,
      RegisterDataDefinition nameB (f0' :: [fldA] ++ badField :: [fldB]) []
          initialState =
        RegisterDataDefinition nameB (hdrField :: [fldA] ++ badField :: [fldB]) []
          initialState :=
  registerDataDefinition_missing_name_tag nameB hdrField badField [fldA] [fldB]
    [] initialState (by decide) (by decide)

/-! ### SetData theorems -/

/-- C1 (documenting the code bug).  A record none of whose fields carries
a non-empty name tag does not make `SetData` return an error before the
native call: the collected payload is empty and the source takes the
address of element 0 of the empty slice, a runtime index-out-of-range
panic.  The native set-data call is never reached, but no EmptyPayload
error value exists anywhere in the code — the call panics instead of
failing gracefully.  Evaluated at the failing input: a record whose only
field is the untagged envelope field. -/
theorem setData_empty_payload_panics :
    (SetData nameB [hdrField] 0 initialState).1 = SetDataOutcome.panicEmptyBuf ∧
    collectFloats [hdrField] = Except.ok [] := by
  exact ⟨rfl, rfl⟩

/-- C8.  Round-trip at the byte level, for the record with the untagged
envelope field and two tagged float64 fields holding 1.0 and 2.0:
`SetData` issues the native call with a 16-byte payload that is the
little-endian (x86 native) concatenation of the two 8-byte float64 images
in declaration order, the untagged field contributing nothing; and
decoding those bytes as the same shape's overlay reproduces the two bit
patterns — hence the field values — exactly. -/
theorem setData_roundtrip :
    (SetData nameB [hdrField, fldA, fldB] 0 initialState).1 =
      SetDataOutcome.nativeSetData 0 OBJECT_ID_USER 0 0 16 [oneBits, twoBits] ∧
    payloadBytes [oneBits, twoBits] =
      bytesOfUInt64LE oneBits ++ bytesOfUInt64LE twoBits ∧
    payloadBytes [oneBits, twoBits] =
      [0, 0, 0, 0, 0, 0, 240, 63, 0, 0, 0, 0, 0, 0, 0, 64] ∧
    (payloadBytes [oneBits, twoBits]).length = 16 ∧
    decodeFloat64s (payloadBytes [oneBits, twoBits]) = [oneBits, twoBits] := by
  refine ⟨rfl, ?_, ?_, ?_, ?_⟩ <;> decide

/-! ### Dispatcher theorems -/

/-- C5.  For every successfully fetched message (non-negative native
status): an exception-tagged buffer makes dispatch return the error
carrying both the exception code and the originating send ID from the
message, without invoking the data-consumer callback; an open-tagged
buffer is consumed silently (no error, no callback); a
simobject-data-by-type buffer invokes the callback with the decoded
record. -/
theorem dispatch_classification (r1 : Int) (errno : Nat) (buf : RecvBuffer)
    (h : 0 ≤ r1) :
    (buf.ID = RECV_ID_EXCEPTION →
      dispatchFn r1 errno buf =
        (DispatchResult.errException buf.exception buf.sendID, none)) ∧
    (buf.ID = RECV_ID_OPEN →
      dispatchFn r1 errno buf = (DispatchResult.okOpen, none)) ∧
    (buf.ID = RECV_ID_SIMOBJECT_DATA_BYTYPE →
      dispatchFn r1 errno buf = (DispatchResult.callbackOk, some buf)) := by
  have hneg : ¬r1 < 0 := not_lt.2 h
  refine ⟨fun hid => ?_, fun hid => ?_, fun hid => ?_⟩ <;>
    simp [dispatchFn, hneg, hid, RECV_ID_EXCEPTION, RECV_ID_OPEN, RECV_ID_EVENT,
      RECV_ID_SIMOBJECT_DATA_BYTYPE]

/-- Witness for C5: the spec's example buffer (exception code 3, send
ID 42), an open buffer, and a data buffer, each at native status 0. -/
theorem dispatch_classification_witness :
    dispatchFn 0 0 excBuf = (DispatchResult.errException 3 42, none) ∧
    dispatchFn 0 0 openBuf = (DispatchResult.okOpen, none) ∧
    dispatchFn 0 0 dataBuf = (DispatchResult.callbackOk, some dataBuf) :=
  ⟨(dispatch_classification 0 0 excBuf (by decide)).1 rfl,
    (dispatch_classification 0 0 openBuf (by decide)).2.1 rfl,
    (dispatch_classification 0 0 dataBuf (by decide)).2.2 rfl⟩

/-- C2, amended.  A successfully fetched message with an unknown envelope
tag makes dispatch return the unknown-kind error carrying the raw tag,
without invoking the callback — but the poll loop does **not** treat it
as fatal: `connect` classifies it as a non-critical warning and keeps
ticking.  The only dispatch results that terminate the connect-cycle are
the `ErrGetNextDispatch`-wrapping failures of the native fetch itself. -/
theorem dispatch_unknown_kind_not_fatal (r1 : Int) (errno : Nat)
    (buf : RecvBuffer) (h : 0 ≤ r1)
    (h1 : buf.ID ≠ RECV_ID_EXCEPTION) (h2 : buf.ID ≠ RECV_ID_OPEN)
    (h3 : buf.ID ≠ RECV_ID_EVENT) (h4 : buf.ID ≠ RECV_ID_SIMOBJECT_DATA_BYTYPE) :
    dispatchFn r1 errno buf = (DispatchResult.errUnknownKind buf.ID, none) ∧
    classifyDispatch (DispatchResult.errUnknownKind buf.ID) =
      TickOutcome.warnContinue ∧
    ∀ res : DispatchResult,
      classifyDispatch res = TickOutcome.terminateCycle ↔
        ∃ r, res = DispatchResult.errGetNextDispatch r := by
  have hneg : ¬r1 < 0 := not_lt.2 h
  refine ⟨by simp [dispatchFn, hneg, h1, h2, h3, h4], rfl, ?_⟩
  intro res
  cases res with
  | errEFail r e =>
    by_cases he : e = 0 <;> simp [classifyDispatch, he]
  | errGetNextDispatch r => simp [classifyDispatch]
  | errException c sid => simp [classifyDispatch]
  | okOpen => simp [classifyDispatch]
  | errEvent e => simp [classifyDispatch]
  | callbackOk => simp [classifyDispatch]
  | errUnknownKind t => simp [classifyDispatch]

/-- Witness for C2 (amended): the unknown-tag buffer at native status 0. -/
theorem dispatch_unknown_kind_not_fatal_witness :
    dispatchFn 0 0 unknownBuf =
      (DispatchResult.errUnknownKind unknownBuf.ID, none) ∧
    classifyDispatch (DispatchResult.errUnknownKind unknownBuf.ID) =
      TickOutcome.warnContinue ∧
    ∀ res : DispatchResult,
      classifyDispatch res = TickOutcome.terminateCycle ↔
        ∃ r, res = DispatchResult.errGetNextDispatch r :=
  dispatch_unknown_kind_not_fatal 0 0 unknownBuf (by decide) (by decide)
    (by decide) (by decide) (by decide)

/-- Counterexample to C2 as stated: on the unknown-tag buffer, dispatch
does return the unknown-kind error, but the poll loop's classification of
that error is the non-fatal log-and-continue outcome, not cycle
termination. -/
theorem dispatch_unknown_kind_cex :
    dispatchFn 0 0 unknownBuf = (DispatchResult.errUnknownKind 3, none) ∧
    classifyDispatch (dispatchFn 0 0 unknownBuf).1 = TickOutcome.warnContinue ∧
    TickOutcome.warnContinue ≠ TickOutcome.terminateCycle := by
  refine ⟨rfl, rfl, by decide⟩

/-! ### Reconnect backoff theorem -/

/-- C7.  In `StartReconnect`'s loop, a connect-cycle that ran strictly
longer than 90 seconds resets the backoff state to its initial interval
before the next delay is computed — the next delay is the initial
interval; a cycle of 90 seconds or less leaves the state untouched, so
the next delay grows from the previous interval. -/
theorem reconnect_backoff_reset (bo : ExponentialBackOff) (d : Nat) :
    (90 * second < d →
      reconnectBackoffStep bo d = bo.reset.nextBackOff ∧
      (reconnectBackoffStep bo d).1 = bo.initialInterval) ∧
    (d ≤ 90 * second → reconnectBackoffStep bo d = bo.nextBackOff) := by
  have hstep : reconnectBackoffStep bo d =
      (if 90 * second < d then bo.reset else bo).nextBackOff := rfl
  constructor
  · intro hgt
    rw [hstep, if_pos hgt]
    exact ⟨rfl, rfl⟩
  · intro hle
    rw [hstep, if_neg (not_lt.2 hle)]

/-- Witness for C7: a backoff state grown to 1.6875 s.  A 91-second run
resets it — the next delay is the 0.5 s initial interval; a 5-second run
leaves it growing from 1.6875 s. -/
theorem reconnect_backoff_reset_witness :
    (reconnectBackoffStep grownBo (91 * second) = grownBo.reset.nextBackOff ∧
      (reconnectBackoffStep grownBo (91 * second)).1 = grownBo.initialInterval) ∧
    reconnectBackoffStep grownBo (5 * second) = grownBo.nextBackOff :=
  ⟨(reconnect_backoff_reset grownBo (91 * second)).1 (by decide),
    (reconnect_backoff_reset grownBo (5 * second)).2 (by decide)⟩

/-! ### Connect-cycle theorems -/

theorem pollLoop_no_close (ticks : List TickEvent) :
    ConnAction.closeSession ∉ (pollLoop ticks).1 := by
  induction ticks with
  | nil => simp [pollLoop]
  | cons t ts ih =>
    cases t with
    | ctxDone => simp [pollLoop]
    | tick r1 errno buf =>
      simp only [pollLoop]
      cases hcl : classifyDispatch (dispatchFn r1 errno buf).1 <;>
        simp [hcl, ih]

/-- C9.  Whenever a connect-cycle whose session open succeeded returns —
by outer cancellation or by a fatal dispatch error, the only panic-free
exits of the loop — the session close appears exactly once among its
actions, and as the last action before the return (it runs deferred). -/
theorem connectCycle_close_once (ticks : List TickEvent)
    (acts : List ConnAction) (e : CycleEnd)
    (h : connectCycle true ticks = (acts, some e)) :
    acts.count ConnAction.closeSession = 1 ∧
    acts.getLast? = some ConnAction.closeSession := by
  have hcc : connectCycle true ticks =
      (match (pollLoop ticks).2 with
        | some e' =>
          (ConnAction.startReceivers :: (pollLoop ticks).1 ++
            [ConnAction.closeSession], some e')
        | none => (ConnAction.startReceivers :: (pollLoop ticks).1, none)) := rfl
  cases hq : (pollLoop ticks).2 with
  | none =>
    rw [hcc, hq] at h
    exact absurd (congrArg Prod.snd h) (by simp)
  | some e' =>
    rw [hcc, hq] at h
    injection h with h1 h2
    subst h1
    constructor
    · have hne : ConnAction.closeSession ≠ ConnAction.startReceivers := by
        simp
      rw [List.count_append, List.count_cons_of_ne hne,
        List.count_eq_zero.2 (pollLoop_no_close ticks)]
      rfl
    · rw [List.getLast?_concat]

/-- Witness for C9: a fatal-dispatch run (native status -1, which is not
`E_FAIL`, so the fetch error wraps `ErrGetNextDispatch`) and a
cancellation run; in both, close is the single final action. -/
theorem connectCycle_close_once_witness :
    ((connectCycle true [TickEvent.tick (-1) 0 unknownBuf]).1.count
        ConnAction.closeSession = 1 ∧
      (connectCycle true [TickEvent.tick (-1) 0 unknownBuf]).1.getLast? =
        some ConnAction.closeSession) ∧
    ((connectCycle true [TickEvent.ctxDone]).1.count
        ConnAction.closeSession = 1 ∧
      (connectCycle true [TickEvent.ctxDone]).1.getLast? =
        some ConnAction.closeSession) :=
  ⟨connectCycle_close_once [TickEvent.tick (-1) 0 unknownBuf]
      (connectCycle true [TickEvent.tick (-1) 0 unknownBuf]).1
      (CycleEnd.fatalDispatch (-1)) rfl,
    connectCycle_close_once [TickEvent.ctxDone]
      (connectCycle true [TickEvent.ctxDone]).1 CycleEnd.cancelled rfl⟩

/-! ### IsReport / RequestData frame-effect theorem -/

/-- C10.  `IsReport` and `RequestData` are not read-only on the session:
for a struct name the registry has never seen, either helper allocates
the next identifier `c` for it (the current counter value), advancing the
counter to `c + 1`; both helpers produce the same mutated state, and
`RequestData` issues its native request with `c` as both the request and
define ID.  A later `RegisterDataDefinition` of the same name then
resolves the same identifier `c` — every native add-definition call it
makes carries define ID `c` — without allocating a new one, leaving the
registry state unchanged. -/
theorem isReport_allocates (s : SimState) (structName : String) (d c : Nat)
    (fields : List GoField) (statuses : List Int) (r1 : Int)
    (hfresh : lookupName s.defineMap structName = none)
    (hcnt : lookupName s.defineMap lastKey = some c)
    (hc : c + 1 < dwordSize) :
    (IsReport structName d s).1 = decide (d = c) ∧
    lookupName (IsReport structName d s).2.defineMap structName = some c ∧
    counterOf (IsReport structName d s).2 = c + 1 ∧
    (RequestData structName r1 s).2 = (IsReport structName d s).2 ∧
    (RequestData structName r1 s).1 =
      RequestDataOnSimObjectType c c 0 SIMOBJECT_TYPE_USER r1 ∧
    GetDefineID structName (IsReport structName d s).2 =
      (c, (IsReport structName d s).2) ∧
    (RegisterDataDefinition structName fields statuses
        (IsReport structName d s).2).2.2 = (IsReport structName d s).2 ∧
    ∀ call ∈ (RegisterDataDefinition structName fields statuses
        (IsReport structName d s).2).2.1, call.defineID = c := by
  have hne : structName ≠ lastKey := by
    intro e
    rw [e, hcnt] at hfresh
    cases hfresh
  have hget : GetDefineID structName s =
      (c, { s with
        defineMap := (lastKey, c + 1) :: (structName, c) :: s.defineMap }) := by
    unfold GetDefineID
    rw [hfresh]
    simp only [hcnt, Option.getD_some, Nat.mod_eq_of_lt hc]
  have hstate : (IsReport structName d s).2 =
      { s with
        defineMap := (lastKey, c + 1) :: (structName, c) :: s.defineMap } := by
    unfold IsReport
    rw [hget]
  have hx : ¬(lastKey = structName) := fun e => hne e.symm
  have hlook :
      lookupName (IsReport structName d s).2.defineMap structName = some c := by
    rw [hstate]
    simp [lookupName, hx]
  refine ⟨?_, hlook, ?_, ?_, ?_, ?_, ?_, ?_⟩
  · unfold IsReport
    rw [hget]
  · rw [hstate]
    simp [counterOf, lookupName]
  · unfold RequestData IsReport
    rw [hget]
  · unfold RequestData
    rw [hget]
  · exact getDefineID_seen hlook
  · have hr : (RegisterDataDefinition structName fields statuses
        (IsReport structName d s).2).2.2 =
        (GetDefineID structName (IsReport structName d s).2).2 := rfl
    rw [hr, getDefineID_seen hlook]
  · intro call hcall
    have hmem : call ∈ (registerFields
        (GetDefineID structName (IsReport structName d s).2).1
        (fields.drop 1) statuses).2 := hcall
    have hdid := registerFields_calls_defineID
      (GetDefineID structName (IsReport structName d s).2).1
      (fields.drop 1) statuses call hmem
    rw [getDefineID_seen hlook] at hdid
    exact hdid

/-- Witness for C10: from a fresh session, `IsReport` on `nameA` (with a
record claiming define ID 0) allocates identifier 0 and advances the
counter to 1; a later registration of `nameA` reuses identifier 0. -/
theorem isReport_allocates_witness :
    (IsReport nameA 0 initialState).1 = decide ((0 : Nat) = 0) ∧
    lookupName (IsReport nameA 0 initialState).2.defineMap nameA = some 0 ∧
    counterOf (IsReport nameA 0 initialState).2 = 0 + 1 ∧
    (RequestData nameA 0 initialState).2 = (IsReport nameA 0 initialState).2 ∧
    (RequestData nameA 0 initialState).1 =
      RequestDataOnSimObjectType 0 0 0 SIMOBJECT_TYPE_USER 0 ∧
    GetDefineID nameA (IsReport nameA 0 initialState).2 =
      (0, (IsReport nameA 0 initialState).2) ∧
    (RegisterDataDefinition nameA [hdrField, fldA] []
        (IsReport nameA 0 initialState).2).2.2 =
      (IsReport nameA 0 initialState).2 ∧
    ∀ call ∈ (RegisterDataDefinition nameA [hdrField, fldA] []
        (IsReport nameA 0 initialState).2).2.1, call.defineID = 0 :=
  isReport_allocates initialState nameA 0 0 [hdrField, fldA] [] 0
    (by decide) (by decide) (by decide)
